import Mathlib

/-!
Verification of the LAMDEC CDA dashboard against its specification.

The repository ships the React frontend (App.tsx) and a README describing the
FastAPI backend; the backend source itself is not part of the repository
snapshot, so backend behaviour (Paginator, PredicateBuilder, KpiCalculator,
Aggregator) is modelled from the spec where a claim needs it, while all
frontend logic is embedded directly from App.tsx.
-/

namespace Lamdec

/-- A CDA record, following the data model of the spec (§3): identifier,
category label, status code in -1/0/1, registration year, derived age,
updated balance and ranking score.  Monetary values and scores are modelled
as rationals. -/
structure CdaRecord where
  num_cda : String
  natureza : String
  agrupamento_situacao : Int
  ano : Int
  qtde_anos_idade_cda : Int
  valor_saldo_atualizado : ℚ
  score : ℚ
deriving DecidableEq, Repr

/-- One row of a year series returned by a resumo endpoint: a year and the
count of inscriptions for that year. -/
structure SerieRow where
  ano : Int
  Quantidade : Int
deriving DecidableEq, Repr

/-- Embeds trimLeadingZerosByKey from App.tsx, applied with key Quantidade:
findIndex of the first row whose value is strictly positive, then slice from
that index when it is positive, otherwise (index 0 or not found, JS -1) the
array unchanged. -/
def trimLeadingZerosByKey (arr : List SerieRow) : List SerieRow :=
  match arr.findIdx? (fun r => 0 < r.Quantidade) with
  | some idx => if 0 < idx then arr.drop idx else arr
  | none => arr

/-- Dropping up to the index found by findIdx? is the same as dropping while
the predicate fails. -/
theorem drop_findIdx_eq_dropWhile {α : Type} (p : α → Bool) (l : List α) (j : Nat)
    (h : l.findIdx? p = some j) : l.drop j = l.dropWhile (fun a => !(p a)) := by
  induction l generalizing j with
  | nil => simp at h
  | cons a t ih =>
    rw [List.findIdx?_cons] at h
    by_cases hp : p a
    · rw [if_pos hp] at h
      injection h with h
      subst h
      rw [List.drop_zero, List.dropWhile_cons_of_neg (by simp [hp])]
    · rw [if_neg hp, List.findIdx?_succ] at h
      match hfi : t.findIdx? p with
      | none => rw [hfi] at h; simp at h
      | some j' =>
        rw [hfi] at h
        injection h with h
        subst h
        rw [List.drop_succ_cons, List.dropWhile_cons_of_pos (by simp [hp])]
        exact ih j' hfi

/-- Congruence of dropWhile in its predicate, pointwise on the list. -/
theorem dropWhile_congr_pt {α : Type} {p q : α → Bool} {l : List α}
    (h : ∀ a ∈ l, p a = q a) : l.dropWhile p = l.dropWhile q := by
  induction l with
  | nil => rfl
  | cons a t ih =>
    have ha := h a (List.mem_cons_self a t)
    by_cases hpa : p a
    · rw [List.dropWhile_cons_of_pos hpa, List.dropWhile_cons_of_pos (ha ▸ hpa)]
      exact ih fun b hb => h b (List.mem_cons_of_mem a hb)
    · rw [List.dropWhile_cons_of_neg hpa, List.dropWhile_cons_of_neg (ha ▸ hpa)]

/-- C1: on year-series rows with non-negative counts, trimLeadingZerosByKey
with key Quantidade removes exactly the leading zero rows whenever some row is
positive (so the result is the suffix starting at the first positive row), an
array whose first row is already positive is returned unchanged, and an array
in which every row is zero is returned unchanged (the all-zero case keeps all
rows rather than trimming them all). -/
theorem trimLeadingZeros_spec (arr : List SerieRow)
    (hnn : ∀ r ∈ arr, 0 ≤ r.Quantidade) :
    ((∃ r ∈ arr, 0 < r.Quantidade) →
      trimLeadingZerosByKey arr = arr.dropWhile (fun r => r.Quantidade == 0)) ∧
    (∀ r0 t, arr = r0 :: t → 0 < r0.Quantidade → trimLeadingZerosByKey arr = arr) ∧
    ((∀ r ∈ arr, r.Quantidade = 0) → trimLeadingZerosByKey arr = arr) := by
  refine ⟨?_, ?_, ?_⟩
  · intro hex
    have hex' : ∃ x, x ∈ arr ∧ (fun r => decide (0 < r.Quantidade)) x := by
      obtain ⟨r, hr, hpos⟩ := hex
      exact ⟨r, hr, by simpa using hpos⟩
    have hfind := List.findIdx?_eq_some_of_exists hex'
    have hdrop := drop_findIdx_eq_dropWhile _ arr _ hfind
    have htrim : trimLeadingZerosByKey arr =
        arr.drop (arr.findIdx fun r => decide (0 < r.Quantidade)) := by
      have hred : trimLeadingZerosByKey arr =
          if 0 < arr.findIdx (fun r => decide (0 < r.Quantidade)) then
            arr.drop (arr.findIdx fun r => decide (0 < r.Quantidade))
          else arr := by
        rw [trimLeadingZerosByKey, hfind]
      rw [hred]
      by_cases h0 : 0 < arr.findIdx fun r => decide (0 < r.Quantidade)
      · rw [if_pos h0]
      · rw [if_neg h0]
        have : arr.findIdx (fun r => decide (0 < r.Quantidade)) = 0 := by omega
        rw [this, List.drop_zero]
    rw [htrim, hdrop]
    refine dropWhile_congr_pt fun r hr => ?_
    have h0 := hnn r hr
    by_cases hz : r.Quantidade = 0
    · simp [hz]
    · have : 0 < r.Quantidade := lt_of_le_of_ne h0 (Ne.symm hz)
      simp [hz, this]
  · intro r0 t harr hpos
    subst harr
    rw [trimLeadingZerosByKey, List.findIdx?_cons, if_pos (by simpa using hpos)]
    simp
  · intro hall
    have : arr.findIdx? (fun r => decide (0 < r.Quantidade)) = none := by
      rw [List.findIdx?_eq_none_iff]
      intro r hr
      simp [hall r hr]
    rw [trimLeadingZerosByKey, this]

/-- Witness for C1 at a concrete series: one leading zero row is dropped. -/
theorem trimLeadingZeros_spec_witness :
    trimLeadingZerosByKey [⟨2019, 0⟩, ⟨2020, 3⟩] =
      ([⟨2019, 0⟩, ⟨2020, 3⟩] : List SerieRow).dropWhile (fun r => r.Quantidade == 0) :=
  (trimLeadingZeros_spec [⟨2019, 0⟩, ⟨2020, 3⟩] (by decide)).1 (by decide)

/-- Modelled from the spec: the backend Paginator (§4.4) is not among the
source files (the README only documents the endpoints), so it is defined from
the spec's words: a page below 1 is treated as 1, a page_size below 1 as the
fixed minimum 1, items is the slice [(page-1)*page_size, page*page_size)
clipped to the sequence bounds, and total is always the full length. -/
def paginate (seq : List CdaRecord) (page pageSize : Nat) : List CdaRecord × Nat :=
  let p := max page 1
  let ps := max pageSize 1
  ((seq.drop ((p - 1) * ps)).take ps, seq.length)

/-- C2: for every sequence and every page ≥ 1 and page_size ≥ 1, the Paginator
reports total = full sequence length regardless of the requested page, a page
past the last valid page yields empty items together with that total, and in
particular page 5 with page_size 20 over a 12-item sequence yields ([], 12). -/
theorem paginate_total_and_overflow_spec (seq : List CdaRecord) (page pageSize : Nat)
    (hp : 1 ≤ page) (hs : 1 ≤ pageSize) :
    (paginate seq page pageSize).2 = seq.length ∧
    (seq.length ≤ (page - 1) * pageSize → (paginate seq page pageSize).1 = []) ∧
    (page = 5 → pageSize = 20 → seq.length = 12 → paginate seq page pageSize = ([], 12)) := by
  have hmp : max page 1 = page := Nat.max_eq_left hp
  have hms : max pageSize 1 = pageSize := Nat.max_eq_left hs
  refine ⟨rfl, ?_, ?_⟩
  · intro hpast
    show ((seq.drop ((max page 1 - 1) * max pageSize 1)).take (max pageSize 1)) = []
    rw [hmp, hms, List.drop_eq_nil_of_le hpast, List.take_nil]
  · intro h5 h20 h12
    subst h5; subst h20
    have hnil : seq.drop ((max 5 1 - 1) * max 20 1) = [] :=
      List.drop_eq_nil_of_le (by rw [h12]; decide)
    show ((seq.drop ((max 5 1 - 1) * max 20 1)).take (max 20 1), seq.length) = ([], 12)
    rw [hnil, List.take_nil, h12]

/-- A concrete record used to instantiate witnesses. -/
def sampleRecord (i : Nat) : CdaRecord :=
  ⟨toString i, "IPTU", 0, 2020, 5, 100, 1/2⟩

/-- Witness for C2: the spec's scenario with twelve concrete records. -/
theorem paginate_total_and_overflow_spec_witness :
    paginate ((List.range 12).map sampleRecord) 5 20 = ([], 12) :=
  (paginate_total_and_overflow_spec ((List.range 12).map sampleRecord) 5 20
    (by decide) (by decide)).2.2 rfl rfl (by simp)

/-- Modelled from the spec: KpiCalculator (§4.7) is not among the source
files; volume_em_cobranca counts the records whose agrupamento_situacao is 0. -/
def volume_em_cobranca (store : List CdaRecord) : Nat :=
  (store.filter (fun r => r.agrupamento_situacao == 0)).length

/-- C3: volume_em_cobranca is exactly the number of records whose
agrupamento_situacao equals 0; it depends on nothing but the situacao codes
(two stores with the same code sequence agree); and on a 3-record dataset with
codes -1, 0 and 1 it returns 1. -/
theorem volume_em_cobranca_spec (store : List CdaRecord) :
    volume_em_cobranca store = store.countP (fun r => r.agrupamento_situacao == 0) ∧
    (∀ other : List CdaRecord,
      store.map CdaRecord.agrupamento_situacao = other.map CdaRecord.agrupamento_situacao →
      volume_em_cobranca store = volume_em_cobranca other) ∧
    (∀ r1 r2 r3 : CdaRecord, r1.agrupamento_situacao = -1 → r2.agrupamento_situacao = 0 →
      r3.agrupamento_situacao = 1 → volume_em_cobranca [r1, r2, r3] = 1) := by
  have hcount : ∀ s : List CdaRecord,
      volume_em_cobranca s = s.countP (fun r => r.agrupamento_situacao == 0) := by
    intro s
    rw [volume_em_cobranca, List.countP_eq_length_filter]
  refine ⟨hcount store, ?_, ?_⟩
  · intro other hmap
    have h1 : store.countP (fun r => r.agrupamento_situacao == 0) =
        (store.map CdaRecord.agrupamento_situacao).countP (fun c => c == 0) := by
      rw [List.countP_map]
      rfl
    have h2 : other.countP (fun r => r.agrupamento_situacao == 0) =
        (other.map CdaRecord.agrupamento_situacao).countP (fun c => c == 0) := by
      rw [List.countP_map]
      rfl
    rw [hcount store, hcount other, h1, h2, hmap]
  · intro r1 r2 r3 h1 h2 h3
    rw [hcount]
    rw [List.countP_cons, List.countP_cons, List.countP_cons, List.countP_nil]
    simp [h1, h2, h3]

/-- Three concrete records realizing the spec's 3-record scenario. -/
def cdaCancelada : CdaRecord := ⟨"cda1", "IPTU", -1, 2015, 10, 100, 1/10⟩

/-- Concrete in-collection record of the spec's 3-record scenario. -/
def cdaEmCobranca : CdaRecord := ⟨"cda2", "ISS", 0, 2018, 7, 50, 1/5⟩

/-- Concrete settled record of the spec's 3-record scenario. -/
def cdaQuitada : CdaRecord := ⟨"cda3", "Taxas", 1, 2020, 5, 10, 9/10⟩

/-- Witness for C3: the spec's scenario dataset gives a volume of 1. -/
theorem volume_em_cobranca_spec_witness :
    volume_em_cobranca [cdaCancelada, cdaEmCobranca, cdaQuitada] = 1 :=
  (volume_em_cobranca_spec [cdaCancelada, cdaEmCobranca, cdaQuitada]).2.2
    cdaCancelada cdaEmCobranca cdaQuitada rfl rfl rfl

/-- Embeds the situacao cell of the BuscaCDA result table in App.tsx: the
nested conditional renders -1 as Cancelada, 0 as Em cobrança and anything
else as Quitada. -/
def renderSituacao (code : Int) : String :=
  if code = -1 then "Cancelada" else if code = 0 then "Em cobrança" else "Quitada"

/-- Modelled from the spec: the label-to-code mapping for situacao (§4.2). -/
def situacaoLabelToCode (label : String) : Option Int :=
  if label = "Cancelada" then some (-1)
  else if label = "Em cobrança" then some 0
  else if label = "Quitada" then some 1
  else none

/-- C4: on the domain -1, 0, 1 the table's situacao rendering is the inverse
of the spec's label-to-code mapping. -/
theorem renderSituacao_inverse_spec :
    ∀ c : Int, c = -1 ∨ c = 0 ∨ c = 1 →
      situacaoLabelToCode (renderSituacao c) = some c := by
  rintro c (rfl | rfl | rfl) <;> decide

/-- Witness for C4 at the in-collection code. -/
theorem renderSituacao_inverse_spec_witness :
    situacaoLabelToCode (renderSituacao 0) = some 0 :=
  renderSituacao_inverse_spec 0 (Or.inr (Or.inl rfl))

/-- Modelled from the spec: normalization of one situacao token in
PredicateBuilder (§4.2): a token is either a numeric code in -1, 0, 1 or a
human label; an unrecognized token is ignored (none). -/
def normSituacaoToken (tok : String) : Option Int :=
  if tok = "-1" then some (-1)
  else if tok = "0" then some 0
  else if tok = "1" then some 1
  else situacaoLabelToCode tok

/-- Modelled from the spec: the merged internal code set of a situacao filter,
dropping unrecognized tokens. -/
def normSituacao (toks : List String) : List Int :=
  toks.filterMap normSituacaoToken

/-- Modelled from the spec: the situacao dimension predicate; an empty
selection imposes no constraint, otherwise the record's code must belong to
the normalized code set. -/
def situacaoPred (toks : List String) (r : CdaRecord) : Bool :=
  toks.isEmpty || (normSituacao toks).contains r.agrupamento_situacao

/-- Modelled from the spec: filtering a dataset by the situacao dimension. -/
def filterBySituacao (toks : List String) (store : List CdaRecord) : List CdaRecord :=
  store.filter (situacaoPred toks)

/-- C5: on every dataset, filtering by the label Em cobrança returns the same
result set as filtering by the code 0, and a request mixing both encodings of
the same status merges them into one code set and again returns that result
set. -/
theorem situacao_dual_encoding_spec (store : List CdaRecord) :
    filterBySituacao ["Em cobrança"] store = filterBySituacao ["0"] store ∧
    filterBySituacao ["Em cobrança", "0"] store = filterBySituacao ["0"] store := by
  constructor <;>
    · refine List.filter_congr fun r _ => ?_
      simp [situacaoPred, normSituacao, normSituacaoToken, situacaoLabelToCode,
        List.contains]

/-- Inductive embedding of the SortField union type of App.tsx. -/
inductive SortField where
  | saldo : SortField
  | ano : SortField
  | score : SortField
deriving DecidableEq, Repr

/-- Inductive embedding of the Direction union type of App.tsx. -/
inductive Direction where
  | asc : Direction
  | desc : Direction
deriving DecidableEq, Repr

/-- Embeds the state of the BuscaCDA component: the filter inputs, the sort
selectors and the pagination counters; a blank numeric bound (the empty-string
branch of the TS union) is none. -/
structure BuscaState where
  q : String
  natureza : List String
  situacao : List String
  minAno : Option Int
  maxAno : Option Int
  minSaldo : Option ℚ
  maxSaldo : Option ℚ
  minScore : Option ℚ
  maxScore : Option ℚ
  sortBy : SortField
  sortDir : Direction
  page : Nat
  pageSize : Nat
deriving DecidableEq, Repr

/-- Embeds the useState initializers of BuscaCDA in App.tsx. -/
def initialBuscaState : BuscaState :=
  ⟨"", [], [], none, none, none, none, none, none,
    SortField.saldo, Direction.desc, 1, 20⟩

/-- Embeds the params object sent by buscar to /cda/search: optional axios
params, where undefined means the key is absent from the request. -/
structure SearchParams where
  q : Option String
  natureza : Option (List String)
  situacao : Option (List String)
  min_ano : Option Int
  max_ano : Option Int
  min_saldo : Option ℚ
  max_saldo : Option ℚ
  min_score : Option ℚ
  max_score : Option ℚ
  sort_by : SortField
  sort_dir : Direction
  page : Nat
  page_size : Nat
deriving DecidableEq, Repr

/-- Embeds the construction of the params object inside buscar in App.tsx: an
empty q (falsy) becomes undefined, an empty natureza or situacao selection
becomes undefined, a blank numeric bound becomes undefined, and the sort and
pagination fields are always sent. -/
def buildParams (s : BuscaState) : SearchParams :=
  ⟨if s.q = "" then none else some s.q,
    if s.natureza.isEmpty then none else some s.natureza,
    if s.situacao.isEmpty then none else some s.situacao,
    s.minAno, s.maxAno, s.minSaldo, s.maxSaldo, s.minScore, s.maxScore,
    s.sortBy, s.sortDir, s.page, s.pageSize⟩

/-- C6: the initial state of BuscaCDA, and hence its initial request, uses
exactly the spec's defaults: sort_by saldo, sort_dir desc, page 1 and
page_size 20. -/
theorem initialBuscaState_defaults_spec :
    initialBuscaState.sortBy = SortField.saldo ∧
    initialBuscaState.sortDir = Direction.desc ∧
    initialBuscaState.page = 1 ∧
    initialBuscaState.pageSize = 20 ∧
    (buildParams initialBuscaState).sort_by = SortField.saldo ∧
    (buildParams initialBuscaState).sort_dir = Direction.desc ∧
    (buildParams initialBuscaState).page = 1 ∧
    (buildParams initialBuscaState).page_size = 20 :=
  ⟨rfl, rfl, rfl, rfl, rfl, rfl, rfl, rfl⟩

/-- Modelled from the spec: the natureza dimension predicate (§4.2); an absent
or empty set imposes no constraint. -/
def naturezaPred (sel : Option (List String)) (r : CdaRecord) : Bool :=
  match sel with
  | none => true
  | some ns => ns.isEmpty || ns.contains r.natureza

/-- C7: every filter dimension left empty in the form state is omitted from
the request built by buscar (sent as undefined, hence absent): the q key is
present iff q is nonempty, natureza and situacao are present iff the selection
is nonempty, blank numeric bounds pass through as absent; and an absent or
empty selection imposes no constraint on its dimension rather than matching
nothing. -/
theorem buscar_empty_dimensions_omitted_spec (s : BuscaState) :
    ((buildParams s).q = none ↔ s.q = "") ∧
    ((buildParams s).natureza = none ↔ s.natureza = []) ∧
    ((buildParams s).situacao = none ↔ s.situacao = []) ∧
    (buildParams s).min_ano = s.minAno ∧ (buildParams s).max_ano = s.maxAno ∧
    (buildParams s).min_saldo = s.minSaldo ∧ (buildParams s).max_saldo = s.maxSaldo ∧
    (buildParams s).min_score = s.minScore ∧ (buildParams s).max_score = s.maxScore ∧
    (∀ r : CdaRecord,
      naturezaPred none r = true ∧ naturezaPred (some []) r = true ∧
      situacaoPred [] r = true) := by
  refine ⟨?_, ?_, ?_, rfl, rfl, rfl, rfl, rfl, rfl, ?_⟩
  · show (if s.q = "" then none else some s.q) = none ↔ s.q = ""
    split <;> simp_all
  · show (if s.natureza.isEmpty then none else some s.natureza) = none ↔ s.natureza = []
    rcases s.natureza with _ | ⟨a, t⟩ <;> simp
  · show (if s.situacao.isEmpty then none else some s.situacao) = none ↔ s.situacao = []
    rcases s.situacao with _ | ⟨a, t⟩ <;> simp
  · intro r
    exact ⟨rfl, rfl, rfl⟩

/-- Witness for C7 at the initial state: all filter dimensions are omitted. -/
theorem buscar_empty_dimensions_omitted_spec_witness :
    (buildParams initialBuscaState).q = none ∧
    (buildParams initialBuscaState).natureza = none ∧
    (buildParams initialBuscaState).situacao = none :=
  ⟨(buscar_empty_dimensions_omitted_spec initialBuscaState).1.mpr rfl,
    (buscar_empty_dimensions_omitted_spec initialBuscaState).2.1.mpr rfl,
    (buscar_empty_dimensions_omitted_spec initialBuscaState).2.2.1.mpr rfl⟩

/-- One row of the quantidade_cdas summary: a natureza name and a count. -/
structure QtdRow where
  name : String
  Quantidade : ℚ
deriving DecidableEq, Repr

/-- One row of the saldo_cdas summary: a natureza name and a balance total. -/
structure SaldoRow where
  name : String
  Saldo : ℚ
deriving DecidableEq, Repr

/-- Folding addition of a projection from an accumulator equals the
accumulator plus the sum of the projected list. -/
theorem foldl_add_accum {α : Type} (f : α → ℚ) (l : List α) (a : ℚ) :
    l.foldl (fun s x => s + f x) a = a + (l.map f).sum := by
  induction l generalizing a with
  | nil => simp
  | cons x t ih => simp [ih, add_assoc]

/-- Embeds pieQuantidadePercent of Resumos in App.tsx: the reduce computing
the total of Quantidade, then per row a pct that is 0 when the total is falsy
and value / total * 100 otherwise.  The row is kept alongside its pct. -/
def pieQuantidadePercent (rows : List QtdRow) : List (QtdRow × ℚ) :=
  let total := rows.foldl (fun s x => s + x.Quantidade) 0
  rows.map (fun x => (x, if total ≠ 0 then x.Quantidade / total * 100 else 0))

/-- Embeds pieSaldoPercent of Resumos in App.tsx, the Saldo counterpart of
pieQuantidadePercent. -/
def pieSaldoPercent (rows : List SaldoRow) : List (SaldoRow × ℚ) :=
  let total := rows.foldl (fun s x => s + x.Saldo) 0
  rows.map (fun x => (x, if total ≠ 0 then x.Saldo / total * 100 else 0))

/-- Division safety and exactness of the percentage rows, generically in the
projected value. -/
theorem pct_rows_aux {α : Type} (f : α → ℚ) (rows : List α) (T : ℚ)
    (hT : T = (rows.map f).sum) :
    (T = 0 →
      ∀ p ∈ rows.map (fun x => (x, if T ≠ 0 then f x / T * 100 else 0)), p.2 = 0) ∧
    (T ≠ 0 →
      (∀ p ∈ rows.map (fun x => (x, if T ≠ 0 then f x / T * 100 else 0)),
        p.2 = f p.1 / T * 100) ∧
      ((rows.map (fun x => (x, if T ≠ 0 then f x / T * 100 else 0))).map Prod.snd).sum
        = 100) := by
  constructor
  · intro h0 p hp
    rcases List.mem_map.mp hp with ⟨x, hx, rfl⟩
    simp [h0]
  · intro hne
    constructor
    · intro p hp
      rcases List.mem_map.mp hp with ⟨x, hx, rfl⟩
      simp [hne]
    · rw [List.map_map]
      have hcomp : (Prod.snd ∘ fun x => (x, if T ≠ 0 then f x / T * 100 else 0)) =
          fun x => f x * (100 / T) := by
        funext x
        simp only [Function.comp_apply, if_pos hne]
        ring
      rw [hcomp, List.sum_map_mul_right, ← hT]
      field_simp

/-- C8: the pie-chart percentage computations are division-safe: when the
total of Quantidade (resp. Saldo) is zero every pct is 0, and when it is
nonzero each row's pct is its value divided by the total times 100, so the
pct values sum exactly to 100 in exact rational arithmetic. -/
theorem pie_percent_division_safe_spec (qrows : List QtdRow) (srows : List SaldoRow) :
    ((qrows.map QtdRow.Quantidade).sum = 0 →
      ∀ p ∈ pieQuantidadePercent qrows, p.2 = 0) ∧
    ((qrows.map QtdRow.Quantidade).sum ≠ 0 →
      (∀ p ∈ pieQuantidadePercent qrows,
        p.2 = p.1.Quantidade / (qrows.map QtdRow.Quantidade).sum * 100) ∧
      ((pieQuantidadePercent qrows).map Prod.snd).sum = 100) ∧
    ((srows.map SaldoRow.Saldo).sum = 0 →
      ∀ p ∈ pieSaldoPercent srows, p.2 = 0) ∧
    ((srows.map SaldoRow.Saldo).sum ≠ 0 →
      (∀ p ∈ pieSaldoPercent srows,
        p.2 = p.1.Saldo / (srows.map SaldoRow.Saldo).sum * 100) ∧
      ((pieSaldoPercent srows).map Prod.snd).sum = 100) := by
  have hq : pieQuantidadePercent qrows =
      qrows.map (fun x => (x,
        if (qrows.map QtdRow.Quantidade).sum ≠ 0 then
          x.Quantidade / (qrows.map QtdRow.Quantidade).sum * 100 else 0)) := by
    simp only [pieQuantidadePercent, foldl_add_accum, zero_add]
  have hs : pieSaldoPercent srows =
      srows.map (fun x => (x,
        if (srows.map SaldoRow.Saldo).sum ≠ 0 then
          x.Saldo / (srows.map SaldoRow.Saldo).sum * 100 else 0)) := by
    simp only [pieSaldoPercent, foldl_add_accum, zero_add]
  have haux := pct_rows_aux QtdRow.Quantidade qrows (qrows.map QtdRow.Quantidade).sum rfl
  have haux' := pct_rows_aux SaldoRow.Saldo srows (srows.map SaldoRow.Saldo).sum rfl
  rw [hq, hs]
  exact ⟨haux.1, fun hne => (haux.2 hne), haux'.1, fun hne => (haux'.2 hne)⟩

/-- Witness for C8: two concrete quantidade rows with total 4 sum to 100. -/
theorem pie_percent_division_safe_spec_witness :
    ((pieQuantidadePercent [⟨"IPTU", 3⟩, ⟨"ISS", 1⟩]).map Prod.snd).sum = 100 :=
  ((pie_percent_division_safe_spec [⟨"IPTU", 3⟩, ⟨"ISS", 1⟩] [⟨"IPTU", 160⟩]).2.1
    (by norm_num)).2

/-- Embeds the pagination-relevant state of BuscaCDA: the page counter, the
page size and the reported total. -/
structure PagState where
  page : Nat
  pageSize : Nat
  total : Nat
deriving DecidableEq, Repr

/-- Embeds totalPages of BuscaCDA in App.tsx: Math.max(1, Math.ceil(total /
pageSize)); for a positive pageSize the ceiling of the real division is
(total + pageSize - 1) / pageSize in natural division. -/
def totalPages (total pageSize : Nat) : Nat :=
  max 1 ((total + pageSize - 1) / pageSize)

/-- Embeds the Anterior button handler: setPage(p => Math.max(1, p - 1)). -/
def clickAnterior (s : PagState) : PagState :=
  ⟨max 1 (s.page - 1), s.pageSize, s.total⟩

/-- Embeds the Próxima button handler: setPage(p => Math.min(totalPages, p + 1)). -/
def clickProxima (s : PagState) : PagState :=
  ⟨min (totalPages s.total s.pageSize) (s.page + 1), s.pageSize, s.total⟩

/-- Embeds the Buscar button handler, which resets the page to 1. -/
def clickBuscar (s : PagState) : PagState :=
  ⟨1, s.pageSize, s.total⟩

/-- Embeds the page-size select handler, which sets the new size and resets
the page to 1. -/
def changePageSize (s : PagState) (n : Nat) : PagState :=
  ⟨1, n, s.total⟩

/-- The invariant maintained by the pagination controls. -/
def pageInvariant (s : PagState) : Prop :=
  1 ≤ s.page ∧ s.page ≤ totalPages s.total s.pageSize

/-- C9: totalPages is at least 1, equal to 1 when total is 0, and each
pagination control preserves 1 ≤ page ≤ totalPages: Anterior never moves the
page below 1, Próxima never moves it above totalPages, and Buscar and a
page-size change reset the page to 1. -/
theorem pagination_controls_invariant_spec (s : PagState) (n : Nat)
    (h : pageInvariant s) :
    1 ≤ totalPages s.total s.pageSize ∧
    (s.total = 0 → totalPages s.total s.pageSize = 1) ∧
    pageInvariant (clickAnterior s) ∧
    pageInvariant (clickProxima s) ∧
    pageInvariant (clickBuscar s) ∧
    pageInvariant (changePageSize s n) := by
  obtain ⟨h1, h2⟩ := h
  have hTP : 1 ≤ totalPages s.total s.pageSize := Nat.le_max_left 1 _
  have hTPn : 1 ≤ totalPages s.total n := Nat.le_max_left 1 _
  refine ⟨hTP, ?_, ⟨Nat.le_max_left 1 _, ?_⟩, ⟨?_, Nat.min_le_left _ _⟩,
    ⟨Nat.le_refl 1, hTP⟩, ⟨Nat.le_refl 1, hTPn⟩⟩
  · intro h0
    have hdiv : (0 + s.pageSize - 1) / s.pageSize = 0 := by
      rcases Nat.eq_zero_or_pos s.pageSize with hps | hps
      · simp [hps]
      · exact Nat.div_eq_of_lt (by omega)
    rw [totalPages, h0, hdiv]
    exact Nat.max_eq_left (Nat.zero_le 1)
  · exact Nat.max_le.mpr ⟨hTP, Nat.le_trans (Nat.sub_le _ _) h2⟩
  · exact Nat.le_min.mpr ⟨hTP, by omega⟩

/-- Witness for C9: from the initial state with an empty result set, the
Próxima handler keeps the invariant. -/
theorem pagination_controls_invariant_spec_witness :
    pageInvariant (clickProxima ⟨1, 20, 0⟩) :=
  (pagination_controls_invariant_spec ⟨1, 20, 0⟩ 10
    ⟨Nat.le_refl 1, Nat.le_max_left 1 _⟩).2.2.2.1

/-- Embeds the qtdTotal memo of Resumos in App.tsx: the reduce summing
Quantidade over the quantidade_cdas rows. -/
def qtdTotal (rows : List QtdRow) : ℚ :=
  rows.foldl (fun s x => s + x.Quantidade) 0

/-- Embeds the KPI fetch inside fetchAll in App.tsx: the state
qtdEmCobrancaTotal starts null; a successful response stores its total field,
a failed request is swallowed by the catch and the state keeps null. -/
def kpiFetchResult (res : Except String ℚ) : Option ℚ :=
  match res with
  | Except.ok t => some t
  | Except.error _ => none

/-- Embeds the Volume de CDAs em cobrança card in App.tsx: it displays
qtdEmCobrancaTotal ?? qtdTotal, that is the endpoint total when present and
the fallback sum otherwise. -/
def displayedVolume (kpiTotal : Option ℚ) (rows : List QtdRow) : ℚ :=
  kpiTotal.getD (qtdTotal rows)

/-- Modelled from the spec: the quantidade_cdas summary of the Aggregator
(§4.6), whose backend source is absent: one row per distinct natureza present
in the data, carrying the number of records of that natureza, which is the
count of that natureza in the list of the records' naturezas. -/
def quantidade_cdas (store : List CdaRecord) : List QtdRow :=
  (store.map CdaRecord.natureza).dedup.map
    (fun n => ⟨n, (((store.map CdaRecord.natureza).count n : ℕ) : ℚ)⟩)

/-- Casting a sum of natural projections to the rationals. -/
theorem sum_map_natCast {α : Type} (f : α → ℕ) (l : List α) :
    (l.map fun a => ((f a : ℕ) : ℚ)).sum = ((l.map f).sum : ℚ) := by
  induction l with
  | nil => simp
  | cons a t ih => simp [ih]

/-- The Quantidade totals of the quantidade_cdas rows add up to the number of
records in the store. -/
theorem qtdTotal_quantidade_cdas (store : List CdaRecord) :
    qtdTotal (quantidade_cdas store) = store.length := by
  rw [qtdTotal, foldl_add_accum, zero_add, quantidade_cdas, List.map_map]
  have hcomp : (QtdRow.Quantidade ∘ fun n =>
      QtdRow.mk n (((store.map CdaRecord.natureza).count n : ℕ) : ℚ)) =
      fun n => (((store.map CdaRecord.natureza).count n : ℕ) : ℚ) := rfl
  rw [hcomp, sum_map_natCast (fun n => (store.map CdaRecord.natureza).count n),
    List.sum_map_count_dedup_eq_length, List.length_map]

/-- C10: when the volume_em_cobranca request fails, the error is swallowed and
the card displays the fallback qtdTotal, the sum of Quantidade over all
quantidade_cdas rows, which equals the count of all records of every situacao;
when the request succeeds the card displays the endpoint's total field. -/
theorem kpi_fallback_spec (rows : List QtdRow) (t : ℚ) (e : String)
    (store : List CdaRecord) :
    displayedVolume (kpiFetchResult (Except.error e)) rows = qtdTotal rows ∧
    displayedVolume (kpiFetchResult (Except.ok t)) rows = t ∧
    displayedVolume (kpiFetchResult (Except.error e)) (quantidade_cdas store) =
      store.length := by
  refine ⟨rfl, rfl, ?_⟩
  show qtdTotal (quantidade_cdas store) = (store.length : ℚ)
  exact qtdTotal_quantidade_cdas store

end Lamdec
